import Mathlib

/-!
Verification of the Demikernel CI driver (tools/demikernel_ci_new.py).

The script orchestrates a two-host CI pipeline: it launches paired remote
commands (checkout, compile, unit test, integration test, cleanup), waits on
each job set, reduces exit statuses to one verdict per stage, and accumulates
a stage-name to boolean status mapping.  The embedding below models a remote
job by its observable pid and exit code, the remote transport by an oracle,
the Python dict by an insertion-ordered association list, and the partial
list indexing in the verdict reducer by Option.
-/

namespace DemikernelCI

/-- One remote job, as observable after `communicate()`: its process id and
its exit code. -/
structure Job where
  pid : Nat
  returncode : Int
deriving DecidableEq

/-- The remote-execution transport: `spawn host sshCommand` is the job handle
obtained from the subprocess launch, abstracted to its observable outcome. -/
structure RemoteEnv where
  spawn : String → String → Job

/-- Debug flag string, from `remote_compile` / `remote_run`. -/
def debug_flag (is_debug : Bool) : String :=
  if is_debug then "DEBUG=yes" else "DEBUG=no"

/-- Elevation wrapper slot, from `remote_run` / `remote_cleanup`. -/
def sudo_cmd (is_sudo : Bool) : String :=
  if is_sudo then "sudo -E" else ""

/-- The ssh wrapping shared by all remote commands. -/
def ssh_wrap (host cmd : String) : String :=
  "ssh " ++ host ++ " \"bash -l -c \x27" ++ cmd ++ "\x27\""

/-- Shell command built by `remote_checkout`. -/
def remote_checkout_cmd (repository branch : String) : String :=
  "cd " ++ repository ++ " && git pull origin && git checkout " ++ branch

/-- `remote_checkout`: launches a checkout command on a remote host. -/
def remote_checkout (env : RemoteEnv) (host repository branch : String) : Job :=
  env.spawn host (ssh_wrap host (remote_checkout_cmd repository branch))

/-- Shell command built by `remote_compile`. -/
def remote_compile_cmd (repository target : String) (is_debug : Bool) : String :=
  "cd " ++ repository ++ " && make PROFILER=yes " ++ debug_flag is_debug ++ " " ++ target

/-- `remote_compile`: launches a compile command on a remote host. -/
def remote_compile (env : RemoteEnv) (host repository target : String) (is_debug : Bool) : Job :=
  env.spawn host (ssh_wrap host (remote_compile_cmd repository target is_debug))

/-- Shell command built by `remote_run`. -/
def remote_run_command (repository : String) (is_debug : Bool) (target : String) (is_sudo : Bool)
    (config_path : String) : String :=
  "cd " ++ repository ++ " && " ++ sudo_cmd is_sudo ++ " make CONFIG_PATH=" ++ config_path ++
    " " ++ debug_flag is_debug ++ " " ++ target

/-- `remote_run`: launches a test command on a remote host. -/
def remote_run (env : RemoteEnv) (host repository : String) (is_debug : Bool) (target : String)
    (is_sudo : Bool) (config_path : String) : Job :=
  env.spawn host (ssh_wrap host (remote_run_command repository is_debug target is_sudo config_path))

/-- Shell command built by `remote_cleanup`. -/
def remote_cleanup_cmd (workspace : String) (is_sudo : Bool) (default_branch : String) : String :=
  "cd " ++ workspace ++ " && " ++ sudo_cmd is_sudo ++ " make clean && git checkout " ++
    default_branch ++ " && git clean -fdx"

/-- `remote_cleanup`: launches a cleanup command on a remote host. -/
def remote_cleanup (env : RemoteEnv) (host workspace : String) (is_sudo : Bool)
    (default_branch : String := "dev") : Job :=
  env.spawn host (ssh_wrap host (remote_cleanup_cmd workspace is_sudo default_branch))

/-- `wait_jobs`: joins every job in insertion order, collecting (pid, returncode)
pairs, then clears the caller's job mapping.  The cleared mapping is returned
explicitly (second component) since the Python clears the dict in place; the
per-job log-file writes are an I/O effect outside the model. -/
def wait_jobs (jobs : List (String × Job)) : List (Nat × Int) × List (String × Job) :=
  (jobs.map (fun p => (p.2.pid, p.2.returncode)), [])

/-- `wait_and_report`: drains the job set and reduces the exit statuses to one
verdict.  The Python indexes `status` at 0 (and at 1 when there is more than
one entry); that indexing is partial, modelled by Option: an empty status list
yields none (an IndexError), never a verdict. -/
def wait_and_report (all_pass : Bool) (jobs : List (String × Job)) :
    Option (Bool × List (String × Job)) :=
  let ret := wait_jobs jobs
  let status := ret.1
  if status.length > 1 then do
    let s0 ← status[0]?
    let s1 ← status[1]?
    pure ((if all_pass then s0.2 == 0 && s1.2 == 0 else s0.2 == 0 || s1.2 == 0), ret.2)
  else do
    let s0 ← status[0]?
    pure (s0.2 == 0, ret.2)

/-- Host role of a launched job within a stage. -/
inductive Role where
  | server
  | client
deriving DecidableEq

/-- Observable launch-phase events of a stage builder: job launches (role,
host, ssh command) and the explicit inter-launch sleep. -/
inductive Event where
  | launch (role : Role) (host : String) (ssh_command : String)
  | sleep (delay : ℚ)
deriving DecidableEq

/-- Job set built by `job_checkout`: a server job always, a client job only
when NFS mode is off. -/
def checkout_jobs (env : RemoteEnv) (repository branch server client : String)
    (enable_nfs : Bool) : List (String × Job) :=
  ("checkout-server-" ++ server, remote_checkout env server repository branch) ::
    (if !enable_nfs then
      [("checkout-client-" ++ client, remote_checkout env client repository branch)]
    else [])

/-- `job_checkout`: builds the checkout job set and reports on it. -/
def job_checkout (env : RemoteEnv) (repository branch server client : String)
    (enable_nfs : Bool) : Option Bool :=
  (wait_and_report true (checkout_jobs env repository branch server client enable_nfs)).map
    Prod.fst

/-- Stage name of the compile stage. -/
def compile_test_name (is_debug : Bool) : String :=
  "compile-" ++ (if is_debug then "debug" else "release")

/-- Job set built by `job_compile`: a server job always, a client job only
when NFS mode is off. -/
def compile_jobs (env : RemoteEnv) (repository libos : String) (is_debug : Bool)
    (server client : String) (enable_nfs : Bool) : List (String × Job) :=
  (compile_test_name is_debug ++ "-server-" ++ server,
      remote_compile env server repository ("all LIBOS=" ++ libos) is_debug) ::
    (if !enable_nfs then
      [(compile_test_name is_debug ++ "-client-" ++ client,
        remote_compile env client repository ("all LIBOS=" ++ libos) is_debug)]
    else [])

/-- `job_compile`: builds the compile job set and reports on it. -/
def job_compile (env : RemoteEnv) (repository libos : String) (is_debug : Bool)
    (server client : String) (enable_nfs : Bool) : Option Bool :=
  (wait_and_report true
      (compile_jobs env repository libos is_debug server client enable_nfs)).map Prod.fst

/-- Job set built by `job_test_unit_rust`: unit tests run on the server only. -/
def unit_jobs (env : RemoteEnv) (repo libos : String) (is_debug : Bool) (server : String)
    (is_sudo : Bool) (config_path : String) : List (String × Job) :=
  [("unit-test-server-" ++ server,
    remote_run env server repo is_debug ("test-unit-rust LIBOS=" ++ libos) is_sudo config_path)]

/-- `job_test_unit_rust`: runs the unit tests on the server and reports. -/
def job_test_unit_rust (env : RemoteEnv) (repo libos : String) (is_debug : Bool)
    (server : String) (is_sudo : Bool) (config_path : String) : Option Bool :=
  (wait_and_report true (unit_jobs env repo libos is_debug server is_sudo config_path)).map
    Prod.fst

/-- A local/remote address argument pair. -/
structure AddrArgs where
  localAddr : String
  remoteAddr : String
deriving DecidableEq

/-- Rendering of an address pair into the argument string of the TCP
integration test. -/
def render_addr_args (a : AddrArgs) : String :=
  "--local-address " ++ a.localAddr ++ " --remote-address " ++ a.remoteAddr

/-- Server-side address pair of `job_test_integration_tcp_rust`: listens on
server_addr at port 12345, expects the remote peer on client_addr at 23456. -/
def tcp_server_addr_args (server_addr client_addr : String) : AddrArgs :=
  ⟨server_addr ++ ":12345", client_addr ++ ":23456"⟩

/-- Client-side address pair of `job_test_integration_tcp_rust`. -/
def tcp_client_addr_args (server_addr client_addr : String) : AddrArgs :=
  ⟨client_addr ++ ":23456", server_addr ++ ":12345"⟩

/-- Make target of the TCP integration test. -/
def tcp_test_cmd (libos args : String) : String :=
  "test-integration-rust TEST_INTEGRATION=tcp-test LIBOS=" ++ libos ++
    " ARGS=\\\"" ++ args ++ "\\\""

/-- Job set built by `job_test_integration_tcp_rust`: server then client,
both launched before any wait. -/
def tcp_jobs (env : RemoteEnv) (repo libos : String) (is_debug : Bool)
    (server client server_addr client_addr : String) (is_sudo : Bool)
    (config_path : String) : List (String × Job) :=
  [("integration-test-server-" ++ server,
    remote_run env server repo is_debug
      (tcp_test_cmd libos (render_addr_args (tcp_server_addr_args server_addr client_addr)))
      is_sudo config_path),
   ("integration-test-client-" ++ client,
    remote_run env client repo is_debug
      (tcp_test_cmd libos (render_addr_args (tcp_client_addr_args server_addr client_addr)))
      is_sudo config_path)]

/-- Launch-phase events of the TCP integration stage: server launch then
client launch, with no sleep in between. -/
def tcp_events (repo libos : String) (is_debug : Bool)
    (server client server_addr client_addr : String) (is_sudo : Bool)
    (config_path : String) : List Event :=
  [Event.launch Role.server server
    (ssh_wrap server (remote_run_command repo is_debug
      (tcp_test_cmd libos (render_addr_args (tcp_server_addr_args server_addr client_addr)))
      is_sudo config_path)),
   Event.launch Role.client client
    (ssh_wrap client (remote_run_command repo is_debug
      (tcp_test_cmd libos (render_addr_args (tcp_client_addr_args server_addr client_addr)))
      is_sudo config_path))]

/-- `job_test_integration_tcp_rust`: waits on both jobs with all-must-pass
semantics. -/
def job_test_integration_tcp_rust (env : RemoteEnv) (repo libos : String) (is_debug : Bool)
    (server client server_addr client_addr : String) (is_sudo : Bool)
    (config_path : String) : Option Bool :=
  (wait_and_report true
      (tcp_jobs env repo libos is_debug server client server_addr client_addr is_sudo
        config_path)).map Prod.fst

/-- Argument string of the pipe integration test for one peer. -/
def pipe_args (peer server_addr run_mode : String) : String :=
  "--peer " ++ peer ++ " --pipe-name " ++ server_addr ++ ":12345 --run-mode " ++ run_mode

/-- Make target of the pipe integration test. -/
def pipe_test_cmd (libos args : String) : String :=
  "test-integration-rust TEST_INTEGRATION=pipe-test LIBOS=" ++ libos ++
    " ARGS=\\\"" ++ args ++ "\\\""

/-- Stage name of one pipe-integration run. -/
def pipe_test_name (run_mode : String) : String :=
  "integration-test" ++ "-" ++ run_mode

/-- Server-side command of the pipe integration test. -/
def pipe_server_cmd (libos server_addr run_mode : String) : String :=
  pipe_test_cmd libos (pipe_args "server" server_addr run_mode)

/-- Client-side command of the pipe integration test. -/
def pipe_client_cmd (libos server_addr run_mode : String) : String :=
  pipe_test_cmd libos (pipe_args "client" server_addr run_mode)

/-- Job set built by `job_test_integration_pipe_rust`: the server job always,
a client job only when the run-mode is not standalone. -/
def pipe_jobs (env : RemoteEnv) (repo libos : String) (is_debug : Bool)
    (run_mode server client server_addr : String) (is_sudo : Bool)
    (config_path : String) : List (String × Job) :=
  (pipe_test_name run_mode ++ "-server-" ++ server,
      remote_run env server repo is_debug (pipe_server_cmd libos server_addr run_mode)
        is_sudo config_path) ::
    (if run_mode != "standalone" then
      [(pipe_test_name run_mode ++ "-client-" ++ client,
        remote_run env client repo is_debug (pipe_client_cmd libos server_addr run_mode)
          is_sudo config_path)]
    else [])

/-- Launch-phase events of the pipe integration stage: the server launch
always; when the run-mode is not standalone, a sleep of the configured delay
followed by the client launch. -/
def pipe_events (repo libos : String) (is_debug : Bool)
    (run_mode server client server_addr : String) (delay : ℚ) (is_sudo : Bool)
    (config_path : String) : List Event :=
  Event.launch Role.server server
      (ssh_wrap server (remote_run_command repo is_debug
        (pipe_server_cmd libos server_addr run_mode) is_sudo config_path)) ::
    (if run_mode != "standalone" then
      [Event.sleep delay,
       Event.launch Role.client client
        (ssh_wrap client (remote_run_command repo is_debug
          (pipe_client_cmd libos server_addr run_mode) is_sudo config_path))]
    else [])

/-- `job_test_integration_pipe_rust`: waits with all-must-pass semantics. -/
def job_test_integration_pipe_rust (env : RemoteEnv) (repo libos : String) (is_debug : Bool)
    (run_mode server client server_addr : String) (delay : ℚ) (is_sudo : Bool)
    (config_path : String) : Option Bool :=
  (wait_and_report true
      (pipe_jobs env repo libos is_debug run_mode server client server_addr is_sudo
        config_path)).map Prod.fst

/-- Job set built by `job_cleanup`: a server job always, a client job only
when NFS mode is off. -/
def cleanup_jobs (env : RemoteEnv) (repository server client : String)
    (is_sudo enable_nfs : Bool) : List (String × Job) :=
  ("cleanup-server-" ++ server, remote_cleanup env server repository is_sudo) ::
    (if !enable_nfs then
      [("cleanup-client-" ++ client ++ "-", remote_cleanup env client repository is_sudo)]
    else [])

/-- `job_cleanup`: builds the cleanup job set and reports on it. -/
def job_cleanup (env : RemoteEnv) (repository server client : String)
    (is_sudo enable_nfs : Bool) : Option Bool :=
  (wait_and_report true (cleanup_jobs env repository server client is_sudo enable_nfs)).map
    Prod.fst

/-- The pipeline status mapping: stage name to recorded boolean, in insertion
order (a Python dict). -/
abbrev Status := List (String × Bool)

/-- Dict lookup: `status[k]`, none when the key is absent (a KeyError). -/
def getStatus : Status → String → Option Bool
  | [], _ => none
  | p :: m, k => if p.1 == k then some p.2 else getStatus m k

/-- Dict assignment: `status[k] = v` overwrites the entry in place when the
key is present and appends it otherwise, preserving insertion order. -/
def setStatus : Status → String → Bool → Status
  | [], k, v => [(k, v)]
  | p :: m, k, v => if p.1 == k then (k, v) :: m else p :: setStatus m k v

/-- Privilege rule of `run_pipeline`: elevation is used exactly for the three
named runtime variants. -/
def pipeline_is_sudo (libos : String) : Bool :=
  if libos == "catnip" || libos == "catpowder" || libos == "catloop" then true else false

/-- One stage invocation performed by the pipeline driver, in execution
order. -/
inductive Call where
  | checkout
  | compile
  | unit_tests
  | integration_tcp
  | integration_pipe (run_mode : String)
  | system_test (test_name : String)
  | cleanup
deriving DecidableEq

/-- STEP 1 of `run_pipeline`: check out, unconditionally. -/
def step1_checkout (env : RemoteEnv) (repository branch server client : String)
    (enable_nfs : Bool) : Option (Status × List Call) := do
  let c0 ← job_checkout env repository branch server client enable_nfs
  pure (setStatus [] "checkout" c0, [Call.checkout])

/-- STEP 2 of `run_pipeline`: compile, only when checkout recorded true. -/
def step2_compile (env : RemoteEnv) (repository libos : String) (is_debug : Bool)
    (server client : String) (enable_nfs : Bool) (st : Status × List Call) :
    Option (Status × List Call) := do
  let c ← getStatus st.1 "checkout"
  if c then do
    let r ← job_compile env repository libos is_debug server client enable_nfs
    pure (setStatus st.1 "compile" r, st.2 ++ [Call.compile])
  else pure st

/-- STEP 3 of `run_pipeline`: unit tests (plus the libos-specific integration
smoke tests), only when requested and checkout and compile recorded true. -/
def step3_tests (env : RemoteEnv) (repository libos : String) (is_debug : Bool)
    (server client server_addr client_addr : String) (delay : ℚ) (config_path : String)
    (is_sudo test_unit : Bool) (st : Status × List Call) : Option (Status × List Call) :=
  if test_unit then do
    let c ← getStatus st.1 "checkout"
    if c then do
      let cp ← getStatus st.1 "compile"
      if cp then do
        let u ← job_test_unit_rust env repository libos is_debug server is_sudo config_path
        let status := setStatus st.1 "unit_tests" u
        let calls := st.2 ++ [Call.unit_tests]
        if libos == "catnap" then do
          let r ← job_test_integration_tcp_rust env repository libos is_debug server client
            server_addr client_addr is_sudo config_path
          pure (setStatus status "integration_tests" r, calls ++ [Call.integration_tcp])
        else if libos == "catmem" then do
          let r1 ← job_test_integration_pipe_rust env repository libos is_debug "standalone"
            server client server_addr delay is_sudo config_path
          let status := setStatus status "integration_tests" r1
          let calls := calls ++ [Call.integration_pipe "standalone"]
          let r2 ← job_test_integration_pipe_rust env repository libos is_debug "push-wait"
            server client server_addr delay is_sudo config_path
          let status := setStatus status "integration_tests" r2
          let calls := calls ++ [Call.integration_pipe "push-wait"]
          let r3 ← job_test_integration_pipe_rust env repository libos is_debug "pop-wait"
            server client server_addr delay is_sudo config_path
          let status := setStatus status "integration_tests" r3
          let calls := calls ++ [Call.integration_pipe "pop-wait"]
          let r4 ← job_test_integration_pipe_rust env repository libos is_debug
            "push-wait-async" server client server_addr delay is_sudo config_path
          let status := setStatus status "integration_tests" r4
          let calls := calls ++ [Call.integration_pipe "push-wait-async"]
          let r5 ← job_test_integration_pipe_rust env repository libos is_debug
            "pop-wait-async" server client server_addr delay is_sudo config_path
          pure (setStatus status "integration_tests" r5,
            calls ++ [Call.integration_pipe "pop-wait-async"])
        else
          pure (status, calls)
      else pure st
    else pure st
  else pure st

/-- STEP 4 of `run_pipeline`: system tests, only when a selector was given
(Python truthiness: not None and not empty) and checkout and compile recorded
true.  The catalog enumeration and per-test execution are the external
test-catalog collaborators, abstracted as `catalog` and `system_outcome`. -/
def step4_system (test_system : Option String) (catalog : List String)
    (system_outcome : String → Bool) (st : Status × List Call) :
    Option (Status × List Call) :=
  match test_system with
  | none => some st
  | some ts =>
    if ts == "" then some st
    else do
      let c ← getStatus st.1 "checkout"
      if c then do
        let cp ← getStatus st.1 "compile"
        if cp then
          let test_names := if ts == "all" then catalog else [ts]
          pure (test_names.foldl (fun s n => setStatus s n (system_outcome n)) st.1,
            st.2 ++ test_names.map Call.system_test)
        else pure st
      else pure st

/-- STEP 5 of `run_pipeline`: clean up, unconditionally. -/
def step5_cleanup (env : RemoteEnv) (repository server client : String)
    (is_sudo enable_nfs : Bool) (st : Status × List Call) : Option (Status × List Call) := do
  let cl ← job_cleanup env repository server client is_sudo enable_nfs
  pure (setStatus st.1 "cleanup" cl, st.2 ++ [Call.cleanup])

/-- `run_pipeline`: the five pipeline steps in fixed order, returning the
final status mapping together with the trace of stage invocations. -/
def run_pipeline (env : RemoteEnv) (repository branch libos : String) (is_debug : Bool)
    (server client : String) (test_unit : Bool) (test_system : Option String)
    (server_addr client_addr : String) (delay : ℚ) (config_path : String)
    (enable_nfs : Bool) (catalog : List String) (system_outcome : String → Bool) :
    Option (Status × List Call) :=
  step1_checkout env repository branch server client enable_nfs >>=
    step2_compile env repository libos is_debug server client enable_nfs >>=
    step3_tests env repository libos is_debug server client server_addr client_addr delay
      config_path (pipeline_is_sudo libos) test_unit >>=
    step4_system test_system catalog system_outcome >>=
    step5_cleanup env repository server client (pipeline_is_sudo libos) enable_nfs

/-- `main`: exits 0 when no recorded value is False, -1 otherwise. -/
def main_exit (status : Status) : Int :=
  if status.any (fun p => p.2 == false) then -1 else 0

/-- Projection of a stage invocation to a pipe-integration run-mode. -/
def pipe_mode : Call → Option String
  | Call.integration_pipe m => some m
  | _ => none

/-- A transport on which every remote command exits 0. -/
def env0 : RemoteEnv := ⟨fun _ _ => ⟨0, 0⟩⟩

/-- A transport on which every remote command exits 1. -/
def envF : RemoteEnv := ⟨fun _ _ => ⟨0, 1⟩⟩

/-- Any non-empty job set produces a verdict, and the returned job mapping is
empty. -/
theorem wait_and_report_cons (ap : Bool) (n : String) (j : Job)
    (rest : List (String × Job)) :
    ∃ b, wait_and_report ap ((n, j) :: rest) = some (b, []) := by
  cases rest with
  | nil => exact ⟨j.returncode == 0, rfl⟩
  | cons q qs =>
      refine ⟨if ap then j.returncode == 0 && q.2.returncode == 0
        else j.returncode == 0 || q.2.returncode == 0, ?_⟩
      simp [wait_and_report, wait_jobs]

/-- C1: for a job set of size 1 the verdict is true iff that job's exit code
is 0; for size 2 with all_pass the verdict is true iff both exit codes are 0,
and without all_pass iff at least one exit code is 0. -/
theorem claim_C1 (n1 n2 : String) (j1 j2 : Job) (ap : Bool) :
    (wait_and_report ap [(n1, j1)] = some (true, []) ↔ j1.returncode = 0) ∧
    (wait_and_report true [(n1, j1), (n2, j2)] = some (true, []) ↔
      (j1.returncode = 0 ∧ j2.returncode = 0)) ∧
    (wait_and_report false [(n1, j1), (n2, j2)] = some (true, []) ↔
      (j1.returncode = 0 ∨ j2.returncode = 0)) := by
  refine ⟨?_, ?_, ?_⟩ <;>
    simp [wait_and_report, wait_jobs, Prod.ext_iff]

/-- C6: draining a non-empty job set always empties the job mapping, whatever
the verdict is. -/
theorem claim_C6 (ap : Bool) (jobs : List (String × Job)) (h : jobs ≠ []) :
    ∃ b, wait_and_report ap jobs = some (b, []) := by
  match jobs with
  | [] => exact absurd rfl h
  | (n, j) :: rest => exact wait_and_report_cons ap n j rest

/-- C6 witness: a concrete two-job set is drained to the empty mapping. -/
theorem claim_C6_witness :
    ([(("a" : String), (⟨1, 0⟩ : Job)), ("b", ⟨2, 1⟩)] ≠ ([] : List (String × Job))) ∧
    ∃ b, wait_and_report true [(("a" : String), (⟨1, 0⟩ : Job)), ("b", ⟨2, 1⟩)] =
      some (b, []) :=
  ⟨by simp, claim_C6 true [("a", ⟨1, 0⟩), ("b", ⟨2, 1⟩)] (by simp)⟩

/-- C10: on an empty job set the reducer indexes the empty status list and
fails (IndexError) instead of returning a verdict; with at least one job the
error branch is unreachable. -/
theorem claim_C10 (ap : Bool) :
    wait_and_report ap [] = none ∧
    ∀ jobs : List (String × Job), jobs ≠ [] → (wait_and_report ap jobs).isSome := by
  refine ⟨rfl, ?_⟩
  intro jobs h
  match jobs with
  | [] => exact absurd rfl h
  | (n, j) :: rest =>
      obtain ⟨b, hb⟩ := wait_and_report_cons ap n j rest
      simp [hb]

/-- C10 witness: the empty job set fails, a concrete singleton succeeds. -/
theorem claim_C10_witness :
    wait_and_report true [] = none ∧
    (([(("a" : String), (⟨1, 0⟩ : Job))] : List (String × Job)) ≠ []) ∧
    (wait_and_report true [(("a" : String), (⟨1, 0⟩ : Job))]).isSome :=
  ⟨(claim_C10 true).1, by simp, (claim_C10 true).2 [("a", ⟨1, 0⟩)] (by simp)⟩

/-- C5: in the pipe integration stage the server job is always launched
first; in standalone mode no client job is launched; in every other mode
exactly one client job is launched, and only after the configured delay has
been slept following the server launch. -/
theorem claim_C5 (env : RemoteEnv) (repo libos : String) (is_debug : Bool)
    (run_mode server client server_addr : String) (delay : ℚ) (is_sudo : Bool)
    (config_path : String) :
    (pipe_events repo libos is_debug run_mode server client server_addr delay is_sudo
        config_path).head? =
      some (Event.launch Role.server server
        (ssh_wrap server (remote_run_command repo is_debug
          (pipe_server_cmd libos server_addr run_mode) is_sudo config_path))) ∧
    (run_mode = "standalone" →
      pipe_events repo libos is_debug run_mode server client server_addr delay is_sudo
          config_path =
        [Event.launch Role.server server
          (ssh_wrap server (remote_run_command repo is_debug
            (pipe_server_cmd libos server_addr run_mode) is_sudo config_path))] ∧
      (pipe_jobs env repo libos is_debug run_mode server client server_addr is_sudo
          config_path).length = 1) ∧
    (run_mode ≠ "standalone" →
      pipe_events repo libos is_debug run_mode server client server_addr delay is_sudo
          config_path =
        [Event.launch Role.server server
          (ssh_wrap server (remote_run_command repo is_debug
            (pipe_server_cmd libos server_addr run_mode) is_sudo config_path)),
         Event.sleep delay,
         Event.launch Role.client client
          (ssh_wrap client (remote_run_command repo is_debug
            (pipe_client_cmd libos server_addr run_mode) is_sudo config_path))] ∧
      (pipe_jobs env repo libos is_debug run_mode server client server_addr is_sudo
          config_path).length = 2) := by
  refine ⟨?_, ?_, ?_⟩
  · simp [pipe_events]
  · intro h
    subst h
    simp [pipe_events, pipe_jobs]
  · intro h
    constructor
    · simp [pipe_events, h]
    · simp [pipe_jobs, h]

/-- C5 witness: a concrete push-wait instance launches server, sleeps, then
launches the client. -/
theorem claim_C5_witness :
    (("push-wait" : String) ≠ "standalone") ∧
    (pipe_events "r" "catmem" false "push-wait" "s" "c" "sa" 1 false "cfg" =
      [Event.launch Role.server "s"
        (ssh_wrap "s" (remote_run_command "r" false
          (pipe_server_cmd "catmem" "sa" "push-wait") false "cfg")),
       Event.sleep 1,
       Event.launch Role.client "c"
        (ssh_wrap "c" (remote_run_command "r" false
          (pipe_client_cmd "catmem" "sa" "push-wait") false "cfg"))] ∧
      (pipe_jobs ⟨fun _ _ => ⟨0, 0⟩⟩ "r" "catmem" false "push-wait" "s" "c" "sa" false
        "cfg").length = 2) :=
  ⟨by decide,
    (claim_C5 ⟨fun _ _ => ⟨0, 0⟩⟩ "r" "catmem" false "push-wait" "s" "c" "sa" 1 false
      "cfg").2.2 (by decide)⟩

/-- C7: the TCP integration stage launches exactly two jobs, server then
client with no sleep event between the launches, builds mirrored address
pairs (server local = client remote, server remote = client local), and its
verdict has all-must-pass semantics: true iff both exit codes are 0. -/
theorem claim_C7 (env : RemoteEnv) (repo libos : String) (is_debug : Bool)
    (server client server_addr client_addr : String) (is_sudo : Bool)
    (config_path : String) :
    (tcp_server_addr_args server_addr client_addr).localAddr =
      (tcp_client_addr_args server_addr client_addr).remoteAddr ∧
    (tcp_server_addr_args server_addr client_addr).remoteAddr =
      (tcp_client_addr_args server_addr client_addr).localAddr ∧
    (tcp_jobs env repo libos is_debug server client server_addr client_addr is_sudo
      config_path).length = 2 ∧
    tcp_events repo libos is_debug server client server_addr client_addr is_sudo
        config_path =
      [Event.launch Role.server server
        (ssh_wrap server (remote_run_command repo is_debug
          (tcp_test_cmd libos
            (render_addr_args (tcp_server_addr_args server_addr client_addr)))
          is_sudo config_path)),
       Event.launch Role.client client
        (ssh_wrap client (remote_run_command repo is_debug
          (tcp_test_cmd libos
            (render_addr_args (tcp_client_addr_args server_addr client_addr)))
          is_sudo config_path))] ∧
    job_test_integration_tcp_rust env repo libos is_debug server client server_addr
        client_addr is_sudo config_path =
      some ((remote_run env server repo is_debug
          (tcp_test_cmd libos
            (render_addr_args (tcp_server_addr_args server_addr client_addr)))
          is_sudo config_path).returncode == 0 &&
        (remote_run env client repo is_debug
          (tcp_test_cmd libos
            (render_addr_args (tcp_client_addr_args server_addr client_addr)))
          is_sudo config_path).returncode == 0) := by
  refine ⟨rfl, rfl, rfl, rfl, ?_⟩
  simp [job_test_integration_tcp_rust, tcp_jobs, wait_and_report, wait_jobs]

/-- C9: in the checkout, compile, and cleanup stages the first job launched
is always the server's; with NFS enabled the stage has exactly one job, with
NFS disabled it has exactly two, the last one being the client's. -/
theorem claim_C9 (env : RemoteEnv) (repository branch libos : String) (is_debug : Bool)
    (server client : String) (is_sudo : Bool) :
    ((checkout_jobs env repository branch server client true).length = 1 ∧
      (checkout_jobs env repository branch server client false).length = 2 ∧
      (∀ nfs, (checkout_jobs env repository branch server client nfs).head? =
        some ("checkout-server-" ++ server, remote_checkout env server repository branch)) ∧
      (checkout_jobs env repository branch server client false).getLast? =
        some ("checkout-client-" ++ client, remote_checkout env client repository branch)) ∧
    ((compile_jobs env repository libos is_debug server client true).length = 1 ∧
      (compile_jobs env repository libos is_debug server client false).length = 2 ∧
      (∀ nfs, (compile_jobs env repository libos is_debug server client nfs).head? =
        some (compile_test_name is_debug ++ "-server-" ++ server,
          remote_compile env server repository ("all LIBOS=" ++ libos) is_debug)) ∧
      (compile_jobs env repository libos is_debug server client false).getLast? =
        some (compile_test_name is_debug ++ "-client-" ++ client,
          remote_compile env client repository ("all LIBOS=" ++ libos) is_debug)) ∧
    ((cleanup_jobs env repository server client is_sudo true).length = 1 ∧
      (cleanup_jobs env repository server client is_sudo false).length = 2 ∧
      (∀ nfs, (cleanup_jobs env repository server client is_sudo nfs).head? =
        some ("cleanup-server-" ++ server, remote_cleanup env server repository is_sudo)) ∧
      (cleanup_jobs env repository server client is_sudo false).getLast? =
        some ("cleanup-client-" ++ client ++ "-",
          remote_cleanup env client repository is_sudo)) := by
  refine ⟨⟨rfl, rfl, ?_, rfl⟩, ⟨rfl, rfl, ?_, rfl⟩, ⟨rfl, rfl, ?_, rfl⟩⟩ <;>
    intro nfs <;> cases nfs <;> rfl

theorem getStatus_setStatus_self (m : Status) (k : String) (v : Bool) :
    getStatus (setStatus m k v) k = some v := by
  induction m with
  | nil => simp [setStatus, getStatus]
  | cons p m ih =>
      cases hp : p.1 == k with
      | true => simp [setStatus, getStatus, hp]
      | false => simp [setStatus, getStatus, hp, ih]

theorem getStatus_setStatus_ne (m : Status) (k k' : String) (v : Bool) (h : k' ≠ k) :
    getStatus (setStatus m k' v) k = getStatus m k := by
  induction m with
  | nil => simp [setStatus, getStatus, beq_iff_eq, h]
  | cons p m ih =>
      cases hp : p.1 == k' with
      | true =>
          have hp1 : p.1 = k' := by simpa using hp
          have hpk : (p.1 == k) = false := by simp [hp1, h]
          simp [setStatus, getStatus, hp, hpk, h]
      | false => simp only [setStatus, hp, if_false, getStatus, ih]

theorem getStatus_foldl_setStatus (names : List String) (f : String → Bool) (st : Status)
    (k : String) (h : k ∉ names) :
    getStatus (names.foldl (fun s n => setStatus s n (f n)) st) k = getStatus st k := by
  induction names generalizing st with
  | nil => rfl
  | cons n ns ih =>
      have hk : k ∉ ns := fun hm => h (List.mem_cons_of_mem n hm)
      have hn : n ≠ k := fun he => h (he ▸ List.mem_cons_self n ns)
      rw [List.foldl_cons, ih (setStatus st n (f n)) hk, getStatus_setStatus_ne st k n (f n) hn]

/-- A non-empty job set always yields a verdict. -/
theorem job_some_of_cons {ap : Bool} {jobs : List (String × Job)} {n : String} {j : Job}
    {rest : List (String × Job)} (h : jobs = (n, j) :: rest) :
    ∃ b, (wait_and_report ap jobs).map Prod.fst = some b := by
  subst h
  obtain ⟨b, hb⟩ := wait_and_report_cons ap n j rest
  exact ⟨b, by simp [hb]⟩

theorem job_checkout_some (env : RemoteEnv) (repository branch server client : String)
    (enable_nfs : Bool) :
    ∃ b, job_checkout env repository branch server client enable_nfs = some b :=
  job_some_of_cons rfl

theorem job_compile_some (env : RemoteEnv) (repository libos : String) (is_debug : Bool)
    (server client : String) (enable_nfs : Bool) :
    ∃ b, job_compile env repository libos is_debug server client enable_nfs = some b :=
  job_some_of_cons rfl

theorem job_unit_some (env : RemoteEnv) (repo libos : String) (is_debug : Bool)
    (server : String) (is_sudo : Bool) (config_path : String) :
    ∃ b, job_test_unit_rust env repo libos is_debug server is_sudo config_path = some b :=
  job_some_of_cons rfl

theorem job_tcp_some (env : RemoteEnv) (repo libos : String) (is_debug : Bool)
    (server client server_addr client_addr : String) (is_sudo : Bool)
    (config_path : String) :
    ∃ b, job_test_integration_tcp_rust env repo libos is_debug server client server_addr
      client_addr is_sudo config_path = some b :=
  job_some_of_cons rfl

theorem job_pipe_some (env : RemoteEnv) (repo libos : String) (is_debug : Bool)
    (run_mode server client server_addr : String) (delay : ℚ) (is_sudo : Bool)
    (config_path : String) :
    ∃ b, job_test_integration_pipe_rust env repo libos is_debug run_mode server client
      server_addr delay is_sudo config_path = some b :=
  job_some_of_cons rfl

theorem job_cleanup_some (env : RemoteEnv) (repository server client : String)
    (is_sudo enable_nfs : Bool) :
    ∃ b, job_cleanup env repository server client is_sudo enable_nfs = some b :=
  job_some_of_cons rfl

/-- C8: remote run and cleanup commands carry the elevation wrapper `sudo -E`
exactly when the target libos is catnip, catpowder, or catloop; otherwise the
elevation slot is empty. -/
theorem claim_C8 (libos repository workspace config_path target default_branch : String)
    (is_debug : Bool) :
    (pipeline_is_sudo libos = true ↔
      (libos = "catnip" ∨ libos = "catpowder" ∨ libos = "catloop")) ∧
    remote_run_command repository is_debug target (pipeline_is_sudo libos) config_path =
      "cd " ++ repository ++ " && " ++
        (if libos = "catnip" ∨ libos = "catpowder" ∨ libos = "catloop" then "sudo -E"
          else "") ++
        " make CONFIG_PATH=" ++ config_path ++ " " ++ debug_flag is_debug ++ " " ++
        target ∧
    remote_cleanup_cmd workspace (pipeline_is_sudo libos) default_branch =
      "cd " ++ workspace ++ " && " ++
        (if libos = "catnip" ∨ libos = "catpowder" ∨ libos = "catloop" then "sudo -E"
          else "") ++
        " make clean && git checkout " ++ default_branch ++ " && git clean -fdx" := by
  have hsudo : pipeline_is_sudo libos = true ↔
      (libos = "catnip" ∨ libos = "catpowder" ∨ libos = "catloop") := by
    simp [pipeline_is_sudo, or_assoc]
  refine ⟨hsudo, ?_, ?_⟩ <;>
  · by_cases h : libos = "catnip" ∨ libos = "catpowder" ∨ libos = "catloop"
    · have ht : pipeline_is_sudo libos = true := hsudo.mpr h
      simp [remote_run_command, remote_cleanup_cmd, sudo_cmd, ht, h]
    · have hf : pipeline_is_sudo libos = false := by
        cases hb : pipeline_is_sudo libos
        · rfl
        · exact absurd (hsudo.mp hb) h
      simp [remote_run_command, remote_cleanup_cmd, sudo_cmd, hf, h]

theorem step1_eq (env : RemoteEnv) (repository branch server client : String)
    (enable_nfs : Bool) (c0 : Bool)
    (h : job_checkout env repository branch server client enable_nfs = some c0) :
    step1_checkout env repository branch server client enable_nfs =
      some ([("checkout", c0)], [Call.checkout]) := by
  simp [step1_checkout, h, setStatus]

theorem step2_skip (env : RemoteEnv) (repository libos : String) (is_debug : Bool)
    (server client : String) (enable_nfs : Bool) (st : Status × List Call)
    (h : getStatus st.1 "checkout" = some false) :
    step2_compile env repository libos is_debug server client enable_nfs st = some st := by
  simp [step2_compile, h]

theorem step2_go (env : RemoteEnv) (repository libos : String) (is_debug : Bool)
    (server client : String) (enable_nfs : Bool) (st : Status × List Call) (r : Bool)
    (h : getStatus st.1 "checkout" = some true)
    (hc : job_compile env repository libos is_debug server client enable_nfs = some r) :
    step2_compile env repository libos is_debug server client enable_nfs st =
      some (setStatus st.1 "compile" r, st.2 ++ [Call.compile]) := by
  simp [step2_compile, h, hc]

theorem step3_skip_checkout (env : RemoteEnv) (repository libos : String) (is_debug : Bool)
    (server client server_addr client_addr : String) (delay : ℚ) (config_path : String)
    (is_sudo test_unit : Bool) (st : Status × List Call)
    (h : getStatus st.1 "checkout" = some false) :
    step3_tests env repository libos is_debug server client server_addr client_addr delay
      config_path is_sudo test_unit st = some st := by
  cases test_unit <;> simp [step3_tests, h]

theorem step4_skip_checkout (test_system : Option String) (catalog : List String)
    (system_outcome : String → Bool) (st : Status × List Call)
    (h : getStatus st.1 "checkout" = some false) :
    step4_system test_system catalog system_outcome st = some st := by
  cases test_system with
  | none => rfl
  | some ts => simp [step4_system, h]

theorem step4_go (test_system : Option String) (catalog : List String)
    (system_outcome : String → Bool) (st : Status × List Call)
    (h1 : getStatus st.1 "checkout" = some true)
    (h2 : getStatus st.1 "compile" = some true) :
    ∃ names : List String,
      step4_system test_system catalog system_outcome st =
        some (names.foldl (fun s n => setStatus s n (system_outcome n)) st.1,
          st.2 ++ names.map Call.system_test) ∧
      ∀ n ∈ names, n ∈ catalog ∨ some n = test_system := by
  cases test_system with
  | none => exact ⟨[], by simp [step4_system], by simp⟩
  | some ts =>
      by_cases he : ts == ""
      · exact ⟨[], by simp [step4_system, he], by simp⟩
      · by_cases ha : ts == "all"
        · refine ⟨catalog, by simp [step4_system, he, ha, h1, h2], ?_⟩
          intro n hn
          exact Or.inl hn
        · refine ⟨[ts], by simp [step4_system, he, ha, h1, h2], ?_⟩
          intro n hn
          right
          simp only [List.mem_singleton] at hn
          rw [hn]

theorem step5_go (env : RemoteEnv) (repository server client : String)
    (is_sudo enable_nfs : Bool) (st : Status × List Call) :
    ∃ cl, job_cleanup env repository server client is_sudo enable_nfs = some cl ∧
      step5_cleanup env repository server client is_sudo enable_nfs st =
        some (setStatus st.1 "cleanup" cl, st.2 ++ [Call.cleanup]) := by
  obtain ⟨cl, hcl⟩ := job_cleanup_some env repository server client is_sudo enable_nfs
  exact ⟨cl, hcl, by simp [step5_cleanup, hcl]⟩

/-- C2: when the checkout stage records false, the final status mapping is
exactly checkout plus cleanup: compile, unit_tests, integration_tests and
every system-test key are absent, while cleanup is always present. -/
theorem claim_C2 (env : RemoteEnv) (repository branch libos : String) (is_debug : Bool)
    (server client : String) (test_unit : Bool) (test_system : Option String)
    (server_addr client_addr : String) (delay : ℚ) (config_path : String)
    (enable_nfs : Bool) (catalog : List String) (system_outcome : String → Bool)
    (r : Status) (calls : List Call)
    (h1 : job_checkout env repository branch server client enable_nfs = some false)
    (h2 : run_pipeline env repository branch libos is_debug server client test_unit
      test_system server_addr client_addr delay config_path enable_nfs catalog
      system_outcome = some (r, calls)) :
    getStatus r "compile" = none ∧
    getStatus r "unit_tests" = none ∧
    getStatus r "integration_tests" = none ∧
    (∀ k, k ≠ "checkout" → k ≠ "cleanup" → getStatus r k = none) ∧
    (∃ b, getStatus r "cleanup" = some b) := by
  have hst1 := step1_eq env repository branch server client enable_nfs false h1
  have hget : getStatus ((([("checkout", false)], [Call.checkout]) :
      Status × List Call)).1 "checkout" = some false := rfl
  have hs2 := step2_skip env repository libos is_debug server client enable_nfs _ hget
  have hs3 := step3_skip_checkout env repository libos is_debug server client server_addr
    client_addr delay config_path (pipeline_is_sudo libos) test_unit _ hget
  have hs4 := step4_skip_checkout test_system catalog system_outcome _ hget
  obtain ⟨cl, hcl, hs5⟩ := step5_go env repository server client (pipeline_is_sudo libos)
    enable_nfs ([("checkout", false)], [Call.checkout])
  rw [run_pipeline, hst1] at h2
  simp only [Option.bind_eq_bind, Option.some_bind] at h2
  rw [hs2] at h2
  simp only [Option.bind_eq_bind, Option.some_bind] at h2
  rw [hs3] at h2
  simp only [Option.bind_eq_bind, Option.some_bind] at h2
  rw [hs4] at h2
  simp only [Option.bind_eq_bind, Option.some_bind] at h2
  rw [hs5] at h2
  have hr : r = setStatus [("checkout", false)] "cleanup" cl := by
    have := Option.some.inj h2
    exact (congrArg Prod.fst this).symm
  have hr2 : r = [("checkout", false), ("cleanup", cl)] := by
    rw [hr]
    rfl
  subst hr2
  refine ⟨rfl, rfl, rfl, ?_, ⟨cl, rfl⟩⟩
  intro k hk1 hk2
  have hb1 : (("checkout" : String) == k) = false := by
    rw [beq_eq_false_iff_ne]
    exact Ne.symm hk1
  have hb2 : (("cleanup" : String) == k) = false := by
    rw [beq_eq_false_iff_ne]
    exact Ne.symm hk2
  simp [getStatus, hb1, hb2]

/-- C3: whenever the pipeline returns a status mapping, the process exit code
is 0 iff every recorded value is true, and non-zero iff some recorded value is
false. -/
theorem claim_C3 (env : RemoteEnv) (repository branch libos : String) (is_debug : Bool)
    (server client : String) (test_unit : Bool) (test_system : Option String)
    (server_addr client_addr : String) (delay : ℚ) (config_path : String)
    (enable_nfs : Bool) (catalog : List String) (system_outcome : String → Bool)
    (r : Status) (calls : List Call)
    (h : run_pipeline env repository branch libos is_debug server client test_unit
      test_system server_addr client_addr delay config_path enable_nfs catalog
      system_outcome = some (r, calls)) :
    (main_exit r = 0 ↔ ∀ p ∈ r, p.2 = true) ∧
    (main_exit r ≠ 0 ↔ ∃ p ∈ r, p.2 = false) := by
  clear h
  have hkey : (r.any (fun p => p.2 == false) = true) ↔ ∃ p ∈ r, p.2 = false := by
    simp [List.any_eq_true]
  by_cases hc : ∃ p ∈ r, p.2 = false
  · have hany : r.any (fun p => p.2 == false) = true := hkey.mpr hc
    have hm : main_exit r = -1 := by
      simp only [main_exit, hany]
      rfl
    rw [hm]
    constructor
    · constructor
      · intro h0
        exact absurd h0 (by decide)
      · intro hall
        obtain ⟨p, hp, hpf⟩ := hc
        rw [hall p hp] at hpf
        cases hpf
    · exact ⟨fun _ => hc, fun _ => by decide⟩
  · have hany : r.any (fun p => p.2 == false) = false := by
      cases hb : r.any (fun p => p.2 == false)
      · rfl
      · exact absurd (hkey.mp hb) hc
    have hm : main_exit r = 0 := by
      simp only [main_exit, hany]
      rfl
    rw [hm]
    constructor
    · constructor
      · intro _ p hp
        by_contra hb
        exact hc ⟨p, hp, by simpa using hb⟩
      · intro _
        rfl
    · exact ⟨fun h0 => absurd rfl h0, fun hx => absurd hx hc⟩

theorem filterMap_pipe_mode_map_system (l : List String) :
    (l.map Call.system_test).filterMap pipe_mode = [] := by
  induction l with
  | nil => rfl
  | cons a l ih => simpa [pipe_mode] using ih

theorem step3_catmem (env : RemoteEnv) (repository : String) (is_debug : Bool)
    (server client server_addr client_addr : String) (delay : ℚ) (config_path : String)
    (is_sudo : Bool) (st : Status × List Call)
    (h1 : getStatus st.1 "checkout" = some true)
    (h2 : getStatus st.1 "compile" = some true) :
    ∃ u b5 st2,
      step3_tests env repository "catmem" is_debug server client server_addr client_addr
        delay config_path is_sudo true st = some st2 ∧
      job_test_integration_pipe_rust env repository "catmem" is_debug "pop-wait-async"
        server client server_addr delay is_sudo config_path = some b5 ∧
      getStatus st2.1 "integration_tests" = some b5 ∧
      getStatus st2.1 "unit_tests" = some u ∧
      (∀ k, k ≠ "unit_tests" → k ≠ "integration_tests" →
        getStatus st2.1 k = getStatus st.1 k) ∧
      st2.2 = st.2 ++ [Call.unit_tests, Call.integration_pipe "standalone",
        Call.integration_pipe "push-wait", Call.integration_pipe "pop-wait",
        Call.integration_pipe "push-wait-async", Call.integration_pipe "pop-wait-async"] := by
  obtain ⟨u, hu⟩ := job_unit_some env repository "catmem" is_debug server is_sudo config_path
  obtain ⟨b1, hb1⟩ := job_pipe_some env repository "catmem" is_debug "standalone" server
    client server_addr delay is_sudo config_path
  obtain ⟨b2, hb2⟩ := job_pipe_some env repository "catmem" is_debug "push-wait" server
    client server_addr delay is_sudo config_path
  obtain ⟨b3, hb3⟩ := job_pipe_some env repository "catmem" is_debug "pop-wait" server
    client server_addr delay is_sudo config_path
  obtain ⟨b4, hb4⟩ := job_pipe_some env repository "catmem" is_debug "push-wait-async"
    server client server_addr delay is_sudo config_path
  obtain ⟨b5, hb5⟩ := job_pipe_some env repository "catmem" is_debug "pop-wait-async"
    server client server_addr delay is_sudo config_path
  refine ⟨u, b5,
    (setStatus (setStatus (setStatus (setStatus (setStatus
        (setStatus st.1 "unit_tests" u) "integration_tests" b1) "integration_tests" b2)
        "integration_tests" b3) "integration_tests" b4) "integration_tests" b5,
      st.2 ++ [Call.unit_tests, Call.integration_pipe "standalone",
        Call.integration_pipe "push-wait", Call.integration_pipe "pop-wait",
        Call.integration_pipe "push-wait-async", Call.integration_pipe "pop-wait-async"]),
    ?_, hb5, ?_, ?_, ?_, rfl⟩
  · simp [step3_tests, h1, h2, hu, hb1, hb2, hb3, hb4, hb5]
  · exact getStatus_setStatus_self _ _ _
  · rw [getStatus_setStatus_ne _ _ _ _ (by decide), getStatus_setStatus_ne _ _ _ _
      (by decide), getStatus_setStatus_ne _ _ _ _ (by decide),
      getStatus_setStatus_ne _ _ _ _ (by decide), getStatus_setStatus_ne _ _ _ _
      (by decide)]
    exact getStatus_setStatus_self _ _ _
  · intro k hk1 hk2
    rw [getStatus_setStatus_ne _ _ _ _ (Ne.symm hk2), getStatus_setStatus_ne _ _ _ _
      (Ne.symm hk2), getStatus_setStatus_ne _ _ _ _ (Ne.symm hk2),
      getStatus_setStatus_ne _ _ _ _ (Ne.symm hk2), getStatus_setStatus_ne _ _ _ _
      (Ne.symm hk2), getStatus_setStatus_ne _ _ _ _ (Ne.symm hk1)]

/-- C4: for the shared-memory-pipe libos (catmem), when unit tests are
requested and checkout and compile record true, the pipe integration test is
invoked once per run-mode in the order standalone, push-wait, pop-wait,
push-wait-async, pop-wait-async, each run overwriting the integration_tests
entry, so the final integration_tests value is the pop-wait-async outcome. -/
theorem claim_C4 (env : RemoteEnv) (repository branch : String) (is_debug : Bool)
    (server client : String) (test_system : Option String)
    (server_addr client_addr : String) (delay : ℚ) (config_path : String)
    (enable_nfs : Bool) (catalog : List String) (system_outcome : String → Bool)
    (h1 : job_checkout env repository branch server client enable_nfs = some true)
    (h2 : job_compile env repository "catmem" is_debug server client enable_nfs = some true)
    (h3 : "integration_tests" ∉ catalog)
    (h4 : test_system ≠ some "integration_tests") :
    ∃ r calls b,
      run_pipeline env repository branch "catmem" is_debug server client true test_system
        server_addr client_addr delay config_path enable_nfs catalog system_outcome =
        some (r, calls) ∧
      calls.filterMap pipe_mode = ["standalone", "push-wait", "pop-wait",
        "push-wait-async", "pop-wait-async"] ∧
      job_test_integration_pipe_rust env repository "catmem" is_debug "pop-wait-async"
        server client server_addr delay (pipeline_is_sudo "catmem") config_path = some b ∧
      getStatus r "integration_tests" = some b := by
  have hst1 := step1_eq env repository branch server client enable_nfs true h1
  have hg1 : getStatus ((([("checkout", true)], [Call.checkout]) :
      Status × List Call)).1 "checkout" = some true := rfl
  have hst2 : step2_compile env repository "catmem" is_debug server client enable_nfs
      ([("checkout", true)], [Call.checkout]) =
      some ([("checkout", true), ("compile", true)], [Call.checkout, Call.compile]) :=
    step2_go env repository "catmem" is_debug server client enable_nfs
      ([("checkout", true)], [Call.checkout]) true hg1 h2
  have hg2c : getStatus ((([("checkout", true), ("compile", true)],
      [Call.checkout, Call.compile]) : Status × List Call)).1 "checkout" = some true := rfl
  have hg2p : getStatus ((([("checkout", true), ("compile", true)],
      [Call.checkout, Call.compile]) : Status × List Call)).1 "compile" = some true := rfl
  obtain ⟨u, b5, st3, hstep3, hb5, hint, hunit, hpres, hcalls3⟩ :=
    step3_catmem env repository is_debug server client server_addr client_addr delay
      config_path (pipeline_is_sudo "catmem")
      ([("checkout", true), ("compile", true)], [Call.checkout, Call.compile]) hg2c hg2p
  have hg3c : getStatus st3.1 "checkout" = some true := by
    rw [hpres "checkout" (by decide) (by decide)]
    exact hg2c
  have hg3p : getStatus st3.1 "compile" = some true := by
    rw [hpres "compile" (by decide) (by decide)]
    exact hg2p
  obtain ⟨names, hstep4, hnames⟩ := step4_go test_system catalog system_outcome st3 hg3c hg3p
  obtain ⟨cl, hcl, hstep5⟩ := step5_go env repository server client
    (pipeline_is_sudo "catmem") enable_nfs
    (names.foldl (fun s n => setStatus s n (system_outcome n)) st3.1,
      st3.2 ++ names.map Call.system_test)
  have hnotin : "integration_tests" ∉ names := by
    intro hm
    rcases hnames _ hm with hcat | hts
    · exact h3 hcat
    · exact h4 hts.symm
  refine ⟨setStatus (names.foldl (fun s n => setStatus s n (system_outcome n)) st3.1)
      "cleanup" cl,
    (st3.2 ++ names.map Call.system_test) ++ [Call.cleanup], b5, ?_, ?_, hb5, ?_⟩
  · rw [run_pipeline, hst1]
    simp only [Option.bind_eq_bind, Option.some_bind]
    rw [hst2]
    simp only [Option.some_bind]
    rw [hstep3]
    simp only [Option.some_bind]
    rw [hstep4]
    simp only [Option.some_bind]
    rw [hstep5]
  · rw [hcalls3]
    simp [List.filterMap_append, filterMap_pipe_mode_map_system, pipe_mode]
  · rw [getStatus_setStatus_ne _ _ _ _ (by decide),
      getStatus_foldl_setStatus names system_outcome st3.1 "integration_tests" hnotin]
    exact hint

/-- C2 witness: a run on which every remote command exits 1, so checkout
records false and only checkout and cleanup appear in the final mapping. -/
theorem claim_C2_witness :
    (job_checkout envF "r" "b" "s" "c" false = some false) ∧
    (run_pipeline envF "r" "b" "catnap" false "s" "c" false none "sa" "ca" 1 "cfg" false []
      (fun _ => true) = some ([("checkout", false), ("cleanup", false)],
        [Call.checkout, Call.cleanup])) ∧
    (getStatus [("checkout", false), ("cleanup", false)] "compile" = none ∧
     getStatus [("checkout", false), ("cleanup", false)] "unit_tests" = none ∧
     getStatus [("checkout", false), ("cleanup", false)] "integration_tests" = none ∧
     (∀ k, k ≠ "checkout" → k ≠ "cleanup" →
       getStatus [("checkout", false), ("cleanup", false)] k = none) ∧
     (∃ b, getStatus [("checkout", false), ("cleanup", false)] "cleanup" = some b)) :=
  ⟨rfl, rfl,
    claim_C2 envF "r" "b" "catnap" false "s" "c" false none "sa" "ca" 1 "cfg" false []
      (fun _ => true) _ _ rfl rfl⟩

/-- C3 witness: an all-passing concrete run has exit code 0. -/
theorem claim_C3_witness :
    (run_pipeline env0 "r" "b" "catnap" false "s" "c" false none "sa" "ca" 1 "cfg" false []
      (fun _ => true) = some ([("checkout", true), ("compile", true), ("cleanup", true)],
        [Call.checkout, Call.compile, Call.cleanup])) ∧
    ((main_exit [("checkout", true), ("compile", true), ("cleanup", true)] = 0 ↔
      ∀ p ∈ ([("checkout", true), ("compile", true), ("cleanup", true)] : Status),
        p.2 = true) ∧
     (main_exit [("checkout", true), ("compile", true), ("cleanup", true)] ≠ 0 ↔
      ∃ p ∈ ([("checkout", true), ("compile", true), ("cleanup", true)] : Status),
        p.2 = false)) :=
  ⟨rfl,
    claim_C3 env0 "r" "b" "catnap" false "s" "c" false none "sa" "ca" 1 "cfg" false []
      (fun _ => true) _ _ rfl⟩

/-- C4 witness: an all-passing catmem run with unit tests requested. -/
theorem claim_C4_witness :
    (job_checkout env0 "r" "b" "s" "c" false = some true) ∧
    (job_compile env0 "r" "catmem" false "s" "c" false = some true) ∧
    ("integration_tests" ∉ ([] : List String)) ∧
    ((none : Option String) ≠ some "integration_tests") ∧
    (∃ r calls b,
      run_pipeline env0 "r" "b" "catmem" false "s" "c" true none "sa" "ca" 1 "cfg" false []
        (fun _ => true) = some (r, calls) ∧
      calls.filterMap pipe_mode = ["standalone", "push-wait", "pop-wait",
        "push-wait-async", "pop-wait-async"] ∧
      job_test_integration_pipe_rust env0 "r" "catmem" false "pop-wait-async" "s" "c" "sa"
        1 (pipeline_is_sudo "catmem") "cfg" = some b ∧
      getStatus r "integration_tests" = some b) :=
  ⟨rfl, rfl, by simp, by simp,
    claim_C4 env0 "r" "b" false "s" "c" none "sa" "ca" 1 "cfg" false [] (fun _ => true)
      rfl rfl (by simp) (by simp)⟩

end DemikernelCI
